import Mathlib

/-!
Shallow embedding of the entity-management core of the
Person/Address/FeeDetails/VisaStatus service (`main.py` plus the Pydantic
models in `models/`).

Conventions of the embedding:
* identifiers (Python `UUID`) are modelled as `Nat`;
* timestamps (`datetime.utcnow()`) are modelled as `Nat`; each mutating
  endpoint that reads the clock receives the current time `now` as an
  explicit argument (one operation is logically atomic, so the two
  `default_factory=datetime.utcnow` evaluations inside a single record
  construction see the same instant);
* each Python `Dict[UUID, XRead]` is modelled as an insertion-ordered
  association list `List (Nat × XRead)`; Python dict assignment replaces
  the value in place for an existing key and appends for a new key;
* Pydantic `Update` shapes with `exclude_unset=True` are modelled with an
  `Option` per field: `none` = field not present in the payload,
  `some v` = field present with value `v` (for fields that are themselves
  optional in the record, the payload field is `Option (Option _)`);
* `raise HTTPException` is modelled by returning an `ApiError`; every
  endpoint returns its result together with the (possibly updated) store,
  so that "no partial write" facts are statable.
-/

/-- Error taxonomy of the service: 404 NotFound, 400 duplicate-id on
`create_address`, and 400/422 Pydantic validation failure. -/
inductive ApiError where
  | notFound
  | duplicateIdentity
  | validationFailure
  deriving Repr, DecidableEq

/-- Python `datetime.date`, as stored in `Person.birth_date`. -/
structure PyDate where
  year : Nat
  month : Nat
  day : Nat
  deriving Repr, DecidableEq

/-- Zero-padded decimal rendering of width 2, as in ISO dates. -/
def pad2 (n : Nat) : String :=
  if n < 10 then "0" ++ toString n else toString n

/-- Zero-padded decimal rendering of width 4, as in ISO dates. -/
def pad4 (n : Nat) : String :=
  if n < 10 then "000" ++ toString n
  else if n < 100 then "00" ++ toString n
  else if n < 1000 then "0" ++ toString n
  else toString n

/-- Python `str(d)` on a `datetime.date`: ISO form YYYY-MM-DD. -/
def PyDate.toIso (d : PyDate) : String :=
  pad4 d.year ++ "-" ++ pad2 d.month ++ "-" ++ pad2 d.day

/-- Python `str(x)` on an `Optional[date]`: `str(None)` is the string
"None", otherwise the ISO form. This is exactly what
`list_persons` computes in `str(p.birth_date)`. -/
def pyStrOptDate : Option PyDate → String
  | none => "None"
  | some d => d.toIso

/-! ### The in-memory store

Python's `Dict[UUID, XRead]` preserves insertion order: assigning to an
existing key replaces the value in place, assigning a new key appends.
We model it as an association list. -/

/-- Membership test `k in db` on a Python dict. -/
def dictContains {α : Type} (db : List (Nat × α)) (k : Nat) : Bool :=
  db.any (fun p => p.1 == k)

/-- Lookup `db[k]` on a Python dict, `none` when the key is absent. -/
def dictGet {α : Type} (db : List (Nat × α)) (k : Nat) : Option α :=
  (db.find? (fun p => p.1 == k)).map Prod.snd

/-- Assignment `db[k] = v` on a Python dict: replaces in place when `k`
is already a key (keeping its position), appends otherwise. -/
def dictSet {α : Type} (db : List (Nat × α)) (k : Nat) (v : α) : List (Nat × α) :=
  if db.any (fun p => p.1 == k) then
    db.map (fun p => if p.1 == k then (k, v) else p)
  else
    db ++ [(k, v)]

/-- Iteration `list(db.values())` on a Python dict: values in insertion
order. -/
def dictValues {α : Type} (db : List (Nat × α)) : List α :=
  db.map Prod.snd

/-- One `if x is not None: results = [r for r in results if test]`
step of a list endpoint: narrow by the filter when it was supplied,
keep the list unchanged otherwise. -/
def applyFilter {α β : Type} (o : Option β) (test : β → α → Bool) (l : List α) : List α :=
  match o with
  | none => l
  | some v => l.filter (test v)

/-- One supplied-filter predicate: an omitted filter imposes no
constraint, a supplied one requires its test. -/
def passes {α β : Type} (o : Option β) (test : β → α → Bool) (a : α) : Bool :=
  match o with
  | none => true
  | some v => test v a

/-! ### Address shapes

`models/address.py` is not present under `src/`; its shapes are used by
`main.py` (`AddressCreate`, `AddressRead`, `AddressUpdate`) and by
`models/person.py` (`AddressBase`, embedded with a persistent id). -/

/-- Modelled from the spec: `AddressBase` of the missing
`models/address.py` — street, city, state, postal_code, country, all
required text fields, plus a persistent Address `id` (the Create shape
may carry a client-chosen identifier; `default_factory=uuid4` supplies a
fresh one otherwise, which we model by the caller passing the id). -/
structure AddressBase where
  id : Nat
  street : String
  city : String
  state : String
  postal_code : String
  country : String
  deriving Repr, DecidableEq

/-- Modelled from the spec: `AddressCreate` is `AddressBase` used
verbatim. -/
def AddressCreate := AddressBase

/-- Modelled from the spec: `AddressRead` — the Base fields plus the
server-assigned timestamps (`id` already lives in the Base shape). -/
structure AddressRead where
  id : Nat
  street : String
  city : String
  state : String
  postal_code : String
  country : String
  created_at : Nat
  updated_at : Nat
  deriving Repr, DecidableEq

/-- Modelled from the spec: `AddressUpdate` — every domain field
optional, absence means "no change"; the Update shape carries no `id`
and no timestamps. -/
structure AddressUpdate where
  street : Option String := none
  city : Option String := none
  state : Option String := none
  postal_code : Option String := none
  country : Option String := none
  deriving Repr, DecidableEq

/-- The merge `stored = addresses[id].model_dump();
stored.update(update.model_dump(exclude_unset=True));
AddressRead(**stored)` of `update_address`: fields present in the patch
overwrite, all other keys of the dump (the absent domain fields, `id`,
`created_at`, `updated_at`) are kept. -/
def mergeAddress (r : AddressRead) (u : AddressUpdate) : AddressRead :=
  { r with
    street := u.street.getD r.street
    city := u.city.getD r.city
    state := u.state.getD r.state
    postal_code := u.postal_code.getD r.postal_code
    country := u.country.getD r.country }

/-! ### Address endpoints (`main.py` lines 63–104) -/

/-- `create_address`: reject when the payload id is already a key,
otherwise build `AddressRead(**address.model_dump())` (timestamps from
their `utcnow` default factories, i.e. `now`) and insert it. -/
def create_address (a : AddressCreate) (now : Nat)
    (db : List (Nat × AddressRead)) :
    Except ApiError AddressRead × List (Nat × AddressRead) :=
  if dictContains db a.id then
    (Except.error ApiError.duplicateIdentity, db)
  else
    let r : AddressRead :=
      { id := a.id, street := a.street, city := a.city, state := a.state,
        postal_code := a.postal_code, country := a.country,
        created_at := now, updated_at := now }
    (Except.ok r, dictSet db a.id r)

/-- Optional query filters of `list_addresses`. -/
structure AddressFilters where
  street : Option String := none
  city : Option String := none
  state : Option String := none
  postal_code : Option String := none
  country : Option String := none

/-- `list_addresses`: start from `list(addresses.values())` and narrow
once per supplied filter, each an exact-equality comprehension. -/
def list_addresses (f : AddressFilters)
    (db : List (Nat × AddressRead)) : List AddressRead :=
  let results := dictValues db
  let results := applyFilter f.street (fun v a => a.street == v) results
  let results := applyFilter f.city (fun v a => a.city == v) results
  let results := applyFilter f.state (fun v a => a.state == v) results
  let results := applyFilter f.postal_code (fun v a => a.postal_code == v) results
  let results := applyFilter f.country (fun v a => a.country == v) results
  results

/-- `get_address`: 404 when the id is absent, the stored record
otherwise. -/
def get_address (k : Nat) (db : List (Nat × AddressRead)) :
    Except ApiError AddressRead :=
  match dictGet db k with
  | none => Except.error ApiError.notFound
  | some r => Except.ok r

/-- `update_address`: 404 when absent; otherwise merge the patch into
the dump of the stored record and store the rebuilt `AddressRead`.
No call to `utcnow` occurs on this path. -/
def update_address (k : Nat) (u : AddressUpdate)
    (db : List (Nat × AddressRead)) :
    Except ApiError AddressRead × List (Nat × AddressRead) :=
  match dictGet db k with
  | none => (Except.error ApiError.notFound, db)
  | some stored =>
    let merged := mergeAddress stored u
    (Except.ok merged, dictSet db k merged)

/-! ### Person shapes (`models/person.py`) -/

/-- The character class `[a-z]` of the UNI pattern. -/
def isLowerAZ (c : Char) : Bool := 'a' ≤ c && c ≤ 'z'

/-- The ASCII digits `0`–`9` only. -/
def isDigit09 (c : Char) : Bool := '0' ≤ c && c ≤ '9'

/-- First code point of every decade (digits 0–9 at consecutive code
points) of the Unicode `Nd` (decimal number) general category, which
is what `\d` matches in both Python `re` on `str` and pydantic-core's
rust-regex. -/
def ndDecadeBases : List Nat :=
  [0x30, 0x660, 0x6F0, 0x7C0, 0x966, 0x9E6, 0xA66, 0xAE6, 0xB66, 0xBE6,
   0xC66, 0xCE6, 0xD66, 0xDE6, 0xE50, 0xED0, 0xF20, 0x1040, 0x1090,
   0x17E0, 0x1810, 0x1946, 0x19D0, 0x1A80, 0x1A90, 0x1B50, 0x1BB0,
   0x1C40, 0x1C50, 0xA620, 0xA8D0, 0xA900, 0xA9D0, 0xA9F0, 0xAA50,
   0xABF0, 0xFF10, 0x104A0, 0x10D30, 0x11066, 0x110F0, 0x11136,
   0x111D0, 0x112F0, 0x11450, 0x114D0, 0x11650, 0x116C0, 0x11730,
   0x118E0, 0x11950, 0x11C50, 0x11D50, 0x11DA0, 0x11F50, 0x16A60,
   0x16AC0, 0x16B50, 0x1D7CE, 0x1D7D8, 0x1D7E2, 0x1D7EC, 0x1D7F6,
   0x1E140, 0x1E2F0, 0x1E4F0, 0x1E950, 0x1FBF0]

/-- The character class `\d` of the UNI pattern: a Unicode decimal
digit (`\p{Nd}`), not just ASCII `0`–`9`. -/
def isUnicodeDigit (c : Char) : Bool :=
  ndDecadeBases.any (fun b => b ≤ c.toNat && c.toNat ≤ b + 9)

/-- One alternative of the anchored UNI regex: exactly `n` leading
lowercase letters, then 1–4 digit-class characters, then end of
string; parametrised by the digit class so the source's `\d` and the
narrower ASCII reading can both be expressed. -/
def uniMatchesWith (digitTest : Char → Bool) (cs : List Char) (n : Nat) : Bool :=
  let letters := cs.take n
  let digits := cs.drop n
  letters.length == n && letters.all isLowerAZ &&
    decide (1 ≤ digits.length) && decide (digits.length ≤ 4) &&
    digits.all digitTest

/-- `UNIType`: the anchored pattern `[a-z]` 2–3 times then `\d` 1–4
times of `models/person.py` line 11, nothing else, no normalization;
`\d` is the Unicode digit class of the engine. The quantifier over
the letter count is expanded into the two alternatives. -/
def uniValid (s : String) : Bool :=
  uniMatchesWith isUnicodeDigit s.toList 2 ||
    uniMatchesWith isUnicodeDigit s.toList 3

/-- The same anchored pattern read with ASCII-only digits — the
claim's reading, to be compared with `uniValid`. -/
def uniAsciiValid (s : String) : Bool :=
  uniMatchesWith isDigit09 s.toList 2 || uniMatchesWith isDigit09 s.toList 3

/-- `EmailStr` syntactic check, reduced to the spec's grammar
"local-part @ domain": exactly one `@` with nonempty local part and
domain. -/
def emailValid (s : String) : Bool :=
  let parts := s.toList.splitOnP (fun c => c == '@')
  match parts with
  | [l, d] => !l.isEmpty && !d.isEmpty
  | _ => false

/-- `PersonBase` / `PersonCreate` payload: uni, names, email required;
phone and birth_date optional; `addresses` an embedded list of
`AddressBase` values (defaulting to `[]`). -/
structure PersonCreate where
  uni : String
  first_name : String
  last_name : String
  email : String
  phone : Option String := none
  birth_date : Option PyDate := none
  addresses : List AddressBase := []
  deriving Repr, DecidableEq

/-- `PersonRead`: the Base fields plus server-generated `id` and the
two `utcnow` timestamps. -/
structure PersonRead where
  id : Nat
  uni : String
  first_name : String
  last_name : String
  email : String
  phone : Option String
  birth_date : Option PyDate
  addresses : List AddressBase
  created_at : Nat
  updated_at : Nat
  deriving Repr, DecidableEq

/-- `PersonUpdate`: every field optional; the outer `Option` is
presence in the payload (what `exclude_unset=True` keeps), the inner
`Option` on phone/birth_date is the stored field's own optionality. -/
structure PersonUpdate where
  uni : Option String := none
  first_name : Option String := none
  last_name : Option String := none
  email : Option String := none
  phone : Option (Option String) := none
  birth_date : Option (Option PyDate) := none
  addresses : Option (List AddressBase) := none
  deriving Repr, DecidableEq

/-- Pydantic validation of a `PersonCreate` payload: the `UNIType`
pattern on `uni` and the `EmailStr` syntax on `email` (the typed
fields have no further constraints). -/
def personCreateValid (p : PersonCreate) : Bool :=
  uniValid p.uni && emailValid p.email

/-- Pydantic validation of a `PersonUpdate` payload: the same
constraints, applied only to fields present in the payload. -/
def personUpdateValid (u : PersonUpdate) : Bool :=
  (match u.uni with | none => true | some s => uniValid s) &&
  (match u.email with | none => true | some s => emailValid s)

/-- The merge of `update_person`: dump the stored record, overwrite
the keys present in the patch (for `addresses` this replaces the whole
embedded list), rebuild `PersonRead`. `id`, `created_at` and
`updated_at` are untouched — the patch has no such keys and no
`utcnow` call occurs. -/
def mergePerson (r : PersonRead) (u : PersonUpdate) : PersonRead :=
  { r with
    uni := u.uni.getD r.uni
    first_name := u.first_name.getD r.first_name
    last_name := u.last_name.getD r.last_name
    email := u.email.getD r.email
    phone := u.phone.getD r.phone
    birth_date := u.birth_date.getD r.birth_date
    addresses := u.addresses.getD r.addresses }

/-! ### Person endpoints (`main.py` lines 109–158) -/

/-- `create_person`: Pydantic accepts or rejects the payload at the
boundary; on acceptance `PersonRead(**person.model_dump())` draws a
fresh uuid4 (`freshId`) and both timestamps (`now`), and the record is
stored under its own id — no duplicate check. -/
def create_person (p : PersonCreate) (freshId now : Nat)
    (db : List (Nat × PersonRead)) :
    Except ApiError PersonRead × List (Nat × PersonRead) :=
  if personCreateValid p then
    let r : PersonRead :=
      { id := freshId, uni := p.uni, first_name := p.first_name,
        last_name := p.last_name, email := p.email, phone := p.phone,
        birth_date := p.birth_date, addresses := p.addresses,
        created_at := now, updated_at := now }
    (Except.ok r, dictSet db r.id r)
  else
    (Except.error ApiError.validationFailure, db)

/-- Optional query filters of `list_persons`. -/
structure PersonFilters where
  uni : Option String := none
  first_name : Option String := none
  last_name : Option String := none
  email : Option String := none
  phone : Option String := none
  birth_date : Option String := none
  city : Option String := none
  country : Option String := none

/-- `list_persons`: sequential narrowing comprehensions — exact
equality on the scalar fields, `str(p.birth_date) == birth_date` for
the date, and existential `any(...)` over the embedded addresses for
`city` and `country`. -/
def list_persons (f : PersonFilters)
    (db : List (Nat × PersonRead)) : List PersonRead :=
  let results := dictValues db
  let results := applyFilter f.uni (fun v p => p.uni == v) results
  let results := applyFilter f.first_name (fun v p => p.first_name == v) results
  let results := applyFilter f.last_name (fun v p => p.last_name == v) results
  let results := applyFilter f.email (fun v p => p.email == v) results
  let results := applyFilter f.phone (fun v p => p.phone == some v) results
  let results := applyFilter f.birth_date (fun v p => pyStrOptDate p.birth_date == v) results
  let results := applyFilter f.city (fun v p => p.addresses.any (fun a => a.city == v)) results
  let results := applyFilter f.country (fun v p => p.addresses.any (fun a => a.country == v)) results
  results

/-- `get_person`: 404 when absent, the stored record otherwise. -/
def get_person (k : Nat) (db : List (Nat × PersonRead)) :
    Except ApiError PersonRead :=
  match dictGet db k with
  | none => Except.error ApiError.notFound
  | some r => Except.ok r

/-- `update_person`: Pydantic validates the patch at the boundary;
404 when the id is absent; otherwise merge and store. -/
def update_person (k : Nat) (u : PersonUpdate)
    (db : List (Nat × PersonRead)) :
    Except ApiError PersonRead × List (Nat × PersonRead) :=
  if personUpdateValid u then
    match dictGet db k with
    | none => (Except.error ApiError.notFound, db)
    | some stored =>
      let merged := mergePerson stored u
      (Except.ok merged, dictSet db k merged)
  else
    (Except.error ApiError.validationFailure, db)

/-! ### FeeDetails shapes (`models/FeeDetails.py`) -/

/-- `FeeDetailsBase` / `FeeDetailsCreate`: university_name,
number_of_credits, fee_paid, all required. -/
structure FeeDetailsCreate where
  university_name : String
  number_of_credits : Int
  fee_paid : Bool
  deriving Repr, DecidableEq

/-- `FeeDetailsRead`: the Base fields plus server-generated `id` and
the two `utcnow` timestamps. -/
structure FeeDetailsRead where
  university_name : String
  number_of_credits : Int
  fee_paid : Bool
  id : Nat
  created_at : Nat
  updated_at : Nat
  deriving Repr, DecidableEq

/-- `FeeDetailsUpdate`: every field optional, absence means "no
change". -/
structure FeeDetailsUpdate where
  university_name : Option String := none
  number_of_credits : Option Int := none
  fee_paid : Option Bool := none
  deriving Repr, DecidableEq

/-- The merge of `update_fee_details`: keys present in
`update.model_dump(exclude_unset=True)` overwrite the dump of the
stored record; `id`, `created_at`, `updated_at` and absent domain
fields are kept. -/
def mergeFeeDetails (r : FeeDetailsRead) (u : FeeDetailsUpdate) : FeeDetailsRead :=
  { r with
    university_name := u.university_name.getD r.university_name
    number_of_credits := u.number_of_credits.getD r.number_of_credits
    fee_paid := u.fee_paid.getD r.fee_paid }

/-! ### FeeDetails endpoints (`main.py` lines 163–194) -/

/-- `create_fee_details`: `FeeDetailsRead(**fee.model_dump())` draws a
fresh uuid4 and both timestamps, and is stored under its own id — no
duplicate check. -/
def create_fee_details (p : FeeDetailsCreate) (freshId now : Nat)
    (db : List (Nat × FeeDetailsRead)) :
    Except ApiError FeeDetailsRead × List (Nat × FeeDetailsRead) :=
  let r : FeeDetailsRead :=
    { university_name := p.university_name,
      number_of_credits := p.number_of_credits, fee_paid := p.fee_paid,
      id := freshId, created_at := now, updated_at := now }
  (Except.ok r, dictSet db r.id r)

/-- Optional query filters of `list_fee_details`. -/
structure FeeDetailsFilters where
  university_name : Option String := none
  fee_paid : Option Bool := none

/-- `list_fee_details`: `list(fee_details.values())` narrowed by the
two optional exact-equality filters. -/
def list_fee_details (f : FeeDetailsFilters)
    (db : List (Nat × FeeDetailsRead)) : List FeeDetailsRead :=
  let results := dictValues db
  let results := applyFilter f.university_name (fun v r => r.university_name == v) results
  let results := applyFilter f.fee_paid (fun v r => r.fee_paid == v) results
  results

/-- `get_fee_details`: 404 when absent, the stored record otherwise. -/
def get_fee_details (k : Nat) (db : List (Nat × FeeDetailsRead)) :
    Except ApiError FeeDetailsRead :=
  match dictGet db k with
  | none => Except.error ApiError.notFound
  | some r => Except.ok r

/-- `update_fee_details`: 404 when absent; otherwise merge the patch
into the dump of the stored record and store the result. No `utcnow`
call occurs on this path. -/
def update_fee_details (k : Nat) (u : FeeDetailsUpdate)
    (db : List (Nat × FeeDetailsRead)) :
    Except ApiError FeeDetailsRead × List (Nat × FeeDetailsRead) :=
  match dictGet db k with
  | none => (Except.error ApiError.notFound, db)
  | some stored =>
    let merged := mergeFeeDetails stored u
    (Except.ok merged, dictSet db k merged)

/-! ### VisaStatus shapes (`models/VisaDetails.py`) -/

/-- `VisaStatusBase` / `VisaStatusCreate`: the single required
`visa_status` text field. -/
structure VisaStatusCreate where
  visa_status : String
  deriving Repr, DecidableEq

/-- `VisaStatusRead`: `visa_status` plus server-generated `id` and the
two `utcnow` timestamps. -/
structure VisaStatusRead where
  visa_status : String
  id : Nat
  created_at : Nat
  updated_at : Nat
  deriving Repr, DecidableEq

/-- `VisaStatusUpdate`: the single field, optional. -/
structure VisaStatusUpdate where
  visa_status : Option String := none
  deriving Repr, DecidableEq

/-- The merge of `update_visa_status`. -/
def mergeVisaStatus (r : VisaStatusRead) (u : VisaStatusUpdate) : VisaStatusRead :=
  { r with visa_status := u.visa_status.getD r.visa_status }

/-! ### VisaStatus endpoints (`main.py` lines 199–227) -/

/-- `create_visa_status`: fresh uuid4 and both timestamps, stored
under its own id — no duplicate check. -/
def create_visa_status (p : VisaStatusCreate) (freshId now : Nat)
    (db : List (Nat × VisaStatusRead)) :
    Except ApiError VisaStatusRead × List (Nat × VisaStatusRead) :=
  let r : VisaStatusRead :=
    { visa_status := p.visa_status, id := freshId,
      created_at := now, updated_at := now }
  (Except.ok r, dictSet db r.id r)

/-- Optional query filter of `list_visa_statuses`. -/
structure VisaStatusFilters where
  visa_status : Option String := none

/-- `list_visa_statuses`: `list(visa_statuses.values())` narrowed by
the optional exact-equality filter. -/
def list_visa_statuses (f : VisaStatusFilters)
    (db : List (Nat × VisaStatusRead)) : List VisaStatusRead :=
  let results := dictValues db
  let results := applyFilter f.visa_status (fun v r => r.visa_status == v) results
  results

/-- `get_visa_status`: 404 when absent, the stored record otherwise. -/
def get_visa_status (k : Nat) (db : List (Nat × VisaStatusRead)) :
    Except ApiError VisaStatusRead :=
  match dictGet db k with
  | none => Except.error ApiError.notFound
  | some r => Except.ok r

/-- `update_visa_status`: 404 when absent; otherwise merge and store.
No `utcnow` call occurs on this path. -/
def update_visa_status (k : Nat) (u : VisaStatusUpdate)
    (db : List (Nat × VisaStatusRead)) :
    Except ApiError VisaStatusRead × List (Nat × VisaStatusRead) :=
  match dictGet db k with
  | none => (Except.error ApiError.notFound, db)
  | some stored =>
    let merged := mergeVisaStatus stored u
    (Except.ok merged, dictSet db k merged)

/-! ### The whole service state and its reachable states -/

/-- The four module-level collections of `main.py`. -/
structure SysState where
  persons : List (Nat × PersonRead)
  addresses : List (Nat × AddressRead)
  fee_details : List (Nat × FeeDetailsRead)
  visa_statuses : List (Nat × VisaStatusRead)

/-- The empty state at process start. -/
def initState : SysState :=
  { persons := [], addresses := [], fee_details := [], visa_statuses := [] }

/-- States reachable from process start by any sequence of create and
update requests (get/list do not mutate). -/
inductive Reachable : SysState → Prop where
  | init : Reachable initState
  | createAddress (s : SysState) (a : AddressCreate) (now : Nat) :
      Reachable s →
      Reachable { s with addresses := (create_address a now s.addresses).2 }
  | updateAddress (s : SysState) (k : Nat) (u : AddressUpdate) :
      Reachable s →
      Reachable { s with addresses := (update_address k u s.addresses).2 }
  | createPerson (s : SysState) (p : PersonCreate) (freshId now : Nat) :
      Reachable s →
      Reachable { s with persons := (create_person p freshId now s.persons).2 }
  | updatePerson (s : SysState) (k : Nat) (u : PersonUpdate) :
      Reachable s →
      Reachable { s with persons := (update_person k u s.persons).2 }
  | createFeeDetails (s : SysState) (p : FeeDetailsCreate) (freshId now : Nat) :
      Reachable s →
      Reachable { s with fee_details := (create_fee_details p freshId now s.fee_details).2 }
  | updateFeeDetails (s : SysState) (k : Nat) (u : FeeDetailsUpdate) :
      Reachable s →
      Reachable { s with fee_details := (update_fee_details k u s.fee_details).2 }
  | createVisaStatus (s : SysState) (p : VisaStatusCreate) (freshId now : Nat) :
      Reachable s →
      Reachable { s with visa_statuses := (create_visa_status p freshId now s.visa_statuses).2 }
  | updateVisaStatus (s : SysState) (k : Nat) (u : VisaStatusUpdate) :
      Reachable s →
      Reachable { s with visa_statuses := (update_visa_status k u s.visa_statuses).2 }

/-- Key–record agreement: every record sits under its own `id`. -/
def storeKeyed {α : Type} (idOf : α → Nat) (db : List (Nat × α)) : Prop :=
  ∀ p ∈ db, idOf p.2 = p.1

/-! ### Spec-side predicates

These follow the words of the specification (one predicate per
supplied filter, conjoined), to be compared with the sequential
narrowing the endpoints actually perform. -/

/-- Spec-side satisfaction for an Address against a filter set: every
supplied predicate holds, each an exact equality on the named scalar
field; omitted filters impose no constraint. -/
def addressSat (f : AddressFilters) (a : AddressRead) : Bool :=
  passes f.street (fun v a => a.street == v) a &&
  passes f.city (fun v a => a.city == v) a &&
  passes f.state (fun v a => a.state == v) a &&
  passes f.postal_code (fun v a => a.postal_code == v) a &&
  passes f.country (fun v a => a.country == v) a

/-- Spec-side satisfaction for a Person: exact equality on the scalar
fields, comparison of the date's string form for `birth_date`, and
existential matching over the embedded address sequence for `city`
and `country`. -/
def personSat (f : PersonFilters) (p : PersonRead) : Bool :=
  passes f.uni (fun v p => p.uni == v) p &&
  passes f.first_name (fun v p => p.first_name == v) p &&
  passes f.last_name (fun v p => p.last_name == v) p &&
  passes f.email (fun v p => p.email == v) p &&
  passes f.phone (fun v p => p.phone == some v) p &&
  passes f.birth_date (fun v p => pyStrOptDate p.birth_date == v) p &&
  passes f.city (fun v p => p.addresses.any (fun a => a.city == v)) p &&
  passes f.country (fun v p => p.addresses.any (fun a => a.country == v)) p

/-- Spec-side satisfaction for a FeeDetails record. -/
def feeDetailsSat (f : FeeDetailsFilters) (r : FeeDetailsRead) : Bool :=
  passes f.university_name (fun v r => r.university_name == v) r &&
  passes f.fee_paid (fun v r => r.fee_paid == v) r

/-- Spec-side satisfaction for a VisaStatus record. -/
def visaStatusSat (f : VisaStatusFilters) (r : VisaStatusRead) : Bool :=
  passes f.visa_status (fun v r => r.visa_status == v) r

/-- Spec-side reading of the `uni` pattern, parametrised by what
counts as a digit: the string splits into a block of 2–3 lowercase
ASCII letters followed by a block of 1–4 digits, and nothing else. -/
def uniSpecMatchWith (digitOk : Char → Prop) (s : String) : Prop :=
  ∃ letters digits : List Char,
    s.toList = letters ++ digits ∧
    2 ≤ letters.length ∧ letters.length ≤ 3 ∧
    (∀ c ∈ letters, 'a' ≤ c ∧ c ≤ 'z') ∧
    1 ≤ digits.length ∧ digits.length ≤ 4 ∧
    (∀ c ∈ digits, digitOk c)

/-- The claim's reading of the `uni` pattern: digits are ASCII
`0`–`9`. -/
def uniSpecMatch (s : String) : Prop :=
  uniSpecMatchWith (fun c => '0' ≤ c ∧ c ≤ '9') s

/-- The engine's reading of the `uni` pattern: digits are Unicode
decimal digits (`\p{Nd}`). -/
def uniSpecMatchNd (s : String) : Prop :=
  uniSpecMatchWith (fun c => isUnicodeDigit c = true) s

/-! ### Concrete records, from the walkthrough scenarios of the spec -/

/-- The Address payload of the spec walkthrough. -/
def sampleAddr : AddressBase :=
  { id := 1, street := "736 Riverside Dr", city := "New York", state := "NY",
    postal_code := "10031", country := "USA" }

/-- The Read record `create_address sampleAddr` stores at time 5. -/
def sampleAddrRead : AddressRead :=
  { id := 1, street := "736 Riverside Dr", city := "New York", state := "NY",
    postal_code := "10031", country := "USA", created_at := 5, updated_at := 5 }

/-- The FeeDetails payload of the spec walkthrough. -/
def sampleFee : FeeDetailsCreate :=
  { university_name := "Columbia University", number_of_credits := 30,
    fee_paid := true }

/-- The Person payload of the spec walkthrough: `dy2530`, one embedded
address in New York. -/
def samplePerson : PersonCreate :=
  { uni := "dy2530", first_name := "Dhanvanth Reddy",
    last_name := "Yerramreddy", email := "dhanvanthyerramreddy09@gmail.com",
    addresses := [sampleAddr] }

/-- The Read record `create_person samplePerson` stores with id 2 at
time 3. -/
def samplePersonRead : PersonRead :=
  { id := 2, uni := "dy2530", first_name := "Dhanvanth Reddy",
    last_name := "Yerramreddy", email := "dhanvanthyerramreddy09@gmail.com",
    phone := none, birth_date := none, addresses := [sampleAddr],
    created_at := 3, updated_at := 3 }

/-- The FeeDetails record stored with id 4 at time 6. -/
def sampleFeeRead : FeeDetailsRead :=
  { university_name := "Columbia University", number_of_credits := 30,
    fee_paid := true, id := 4, created_at := 6, updated_at := 6 }

/-- A VisaStatus record stored with id 8 at time 2. -/
def sampleVisaRead : VisaStatusRead :=
  { visa_status := "F1", id := 8, created_at := 2, updated_at := 2 }

/-- The Address patch of the spec walkthrough: only `city` present. -/
def sampleAddrPatch : AddressUpdate := { city := some "Brooklyn" }

/-- A FeeDetails patch with only `number_of_credits` present. -/
def sampleFeePatch : FeeDetailsUpdate := { number_of_credits := some 36 }

/-- A FeeDetails patch with only `university_name` present. -/
def sampleFeeNamePatch : FeeDetailsUpdate :=
  { university_name := some "New York University" }

/-- A Person patch whose only present field is an empty `addresses`
sequence. -/
def clearAddressesPatch : PersonUpdate := { addresses := some [] }

/-! ### Helper lemmas about the dict model -/

theorem dictGet_eq_none (db : List (Nat × α)) (k : Nat) :
    dictGet db k = none ↔ dictContains db k = false := by
  simp [dictGet, dictContains, List.find?_eq_none, List.any_eq_false]

theorem dictGet_mem (db : List (Nat × α)) (k : Nat) (r : α)
    (h : dictGet db k = some r) : (k, r) ∈ db := by
  unfold dictGet at h
  rcases Option.map_eq_some'.1 h with ⟨p, hfind, hsnd⟩
  have hmem := List.mem_of_find?_eq_some hfind
  have hkey := List.find?_some hfind
  simp only [beq_iff_eq] at hkey
  have hp : p = (k, r) := by
    rcases p with ⟨a, b⟩
    simp only at hkey hsnd
    simp [hkey, hsnd]
  rwa [hp] at hmem

theorem mem_dictSet (db : List (Nat × α)) (k : Nat) (v : α) (p : Nat × α)
    (h : p ∈ dictSet db k v) : p = (k, v) ∨ p ∈ db := by
  unfold dictSet at h
  by_cases hc : db.any (fun p => p.1 == k)
  · rw [if_pos hc] at h
    rcases List.mem_map.1 h with ⟨q, hq, hqe⟩
    by_cases hk : q.1 == k
    · left
      rw [if_pos hk] at hqe
      exact hqe.symm
    · right
      rw [if_neg hk] at hqe
      rwa [hqe] at hq
  · rw [if_neg hc] at h
    rcases List.mem_append.1 h with h | h
    · right; exact h
    · left; simpa using h

theorem dictSet_fresh (db : List (Nat × α)) (k : Nat) (v : α)
    (h : dictContains db k = false) : dictSet db k v = db ++ [(k, v)] := by
  unfold dictSet
  unfold dictContains at h
  rw [if_neg (by simp [h])]

theorem dictSet_keys_of_contains (db : List (Nat × α)) (k : Nat) (v : α)
    (h : dictContains db k = true) :
    (dictSet db k v).map Prod.fst = db.map Prod.fst := by
  unfold dictSet
  unfold dictContains at h
  rw [if_pos h, List.map_map]
  apply List.map_congr_left
  intro p _
  by_cases hk : p.1 = k
  · simp [hk]
  · simp [hk]

theorem dictGet_of_contains (db : List (Nat × α)) (k : Nat)
    (h : dictContains db k = true) : ∃ r, dictGet db k = some r := by
  unfold dictContains at h
  have hsome : (db.find? (fun p => p.1 == k)).isSome := by
    rw [List.find?_isSome]
    rcases List.any_eq_true.1 h with ⟨p, hp, hk⟩
    exact ⟨p, hp, hk⟩
  rcases Option.isSome_iff_exists.1 hsome with ⟨q, hq⟩
  exact ⟨q.2, by simp [dictGet, hq]⟩

theorem applyFilter_eq {α β : Type} (o : Option β) (test : β → α → Bool) (l : List α) :
    applyFilter o test l = l.filter (fun a => passes o test a) := by
  cases o with
  | none => simp [applyFilter, passes]
  | some v => rfl

theorem bool_chain5 (b1 b2 b3 b4 b5 : Bool) :
    (b5 && (b4 && (b3 && (b2 && b1)))) = (b1 && (b2 && (b3 && (b4 && b5)))) := by
  cases b1 <;> cases b2 <;> cases b3 <;> cases b4 <;> cases b5 <;> rfl

theorem bool_chain8 (b1 b2 b3 b4 b5 b6 b7 b8 : Bool) :
    (b8 && (b7 && (b6 && (b5 && (b4 && (b3 && (b2 && b1))))))) =
    (b1 && (b2 && (b3 && (b4 && (b5 && (b6 && (b7 && b8))))))) := by
  cases b1 <;> cases b2 <;> cases b3 <;> cases b4 <;> cases b5 <;> cases b6 <;>
    cases b7 <;> cases b8 <;> rfl

theorem update_address_ok_eq (k : Nat) (u : AddressUpdate)
    (db : List (Nat × AddressRead)) (stored : AddressRead)
    (h : dictGet db k = some stored) :
    update_address k u db =
      (Except.ok (mergeAddress stored u), dictSet db k (mergeAddress stored u)) := by
  unfold update_address
  rw [h]

theorem update_person_ok_eq (k : Nat) (u : PersonUpdate)
    (db : List (Nat × PersonRead)) (stored : PersonRead)
    (hu : personUpdateValid u = true) (h : dictGet db k = some stored) :
    update_person k u db =
      (Except.ok (mergePerson stored u), dictSet db k (mergePerson stored u)) := by
  unfold update_person
  rw [if_pos hu, h]

theorem update_fee_details_ok_eq (k : Nat) (u : FeeDetailsUpdate)
    (db : List (Nat × FeeDetailsRead)) (stored : FeeDetailsRead)
    (h : dictGet db k = some stored) :
    update_fee_details k u db =
      (Except.ok (mergeFeeDetails stored u), dictSet db k (mergeFeeDetails stored u)) := by
  unfold update_fee_details
  rw [h]

theorem update_visa_status_ok_eq (k : Nat) (u : VisaStatusUpdate)
    (db : List (Nat × VisaStatusRead)) (stored : VisaStatusRead)
    (h : dictGet db k = some stored) :
    update_visa_status k u db =
      (Except.ok (mergeVisaStatus stored u), dictSet db k (mergeVisaStatus stored u)) := by
  unfold update_visa_status
  rw [h]

/-! ## Claim theorems -/

/-- C3: for every filter set and collection contents, each list
endpoint returns exactly the stored records satisfying every supplied
predicate (logical AND) — exact equality on the named scalar field,
existential matching over the embedded addresses for Person's `city`
and `country`, string-form comparison for `birth_date` — and
supplying no filters returns the full collection. -/
theorem list_filters_sound_complete :
    (∀ (f : AddressFilters) (db : List (Nat × AddressRead)),
        list_addresses f db = (dictValues db).filter (fun a => addressSat f a)) ∧
    (∀ (f : PersonFilters) (db : List (Nat × PersonRead)),
        list_persons f db = (dictValues db).filter (fun p => personSat f p)) ∧
    (∀ (f : FeeDetailsFilters) (db : List (Nat × FeeDetailsRead)),
        list_fee_details f db = (dictValues db).filter (fun r => feeDetailsSat f r)) ∧
    (∀ (f : VisaStatusFilters) (db : List (Nat × VisaStatusRead)),
        list_visa_statuses f db = (dictValues db).filter (fun r => visaStatusSat f r)) ∧
    (∀ db : List (Nat × AddressRead), list_addresses {} db = dictValues db) ∧
    (∀ db : List (Nat × PersonRead), list_persons {} db = dictValues db) ∧
    (∀ db : List (Nat × FeeDetailsRead), list_fee_details {} db = dictValues db) ∧
    (∀ db : List (Nat × VisaStatusRead), list_visa_statuses {} db = dictValues db) := by
  refine ⟨?_, ?_, ?_, ?_, ?_, ?_, ?_, ?_⟩
  · intro f db
    unfold list_addresses addressSat
    simp only [applyFilter_eq, List.filter_filter]
    apply List.filter_congr
    intro a _
    simp only [Bool.and_assoc]
    exact bool_chain5 _ _ _ _ _
  · intro f db
    unfold list_persons personSat
    simp only [applyFilter_eq, List.filter_filter]
    apply List.filter_congr
    intro a _
    simp only [Bool.and_assoc]
    exact bool_chain8 _ _ _ _ _ _ _ _
  · intro f db
    unfold list_fee_details feeDetailsSat
    simp only [applyFilter_eq, List.filter_filter]
    apply List.filter_congr
    intro a _
    exact Bool.and_comm _ _
  · intro f db
    simp [list_visa_statuses, visaStatusSat, applyFilter_eq]
  · intro db; rfl
  · intro db; rfl
  · intro db; rfl
  · intro db; rfl

/-- C5: `create_address` fails with DuplicateIdentity exactly when the
payload's id is already a key; on that failure the collection is left
unchanged; on success the new record (payload fields, both timestamps
at creation time) is returned and appended. -/
theorem create_address_duplicate_spec (a : AddressCreate) (now : Nat)
    (db : List (Nat × AddressRead)) :
    ((create_address a now db).1 = Except.error ApiError.duplicateIdentity ↔
        dictContains db a.id = true) ∧
    (dictContains db a.id = true → (create_address a now db).2 = db) ∧
    (dictContains db a.id = false →
      create_address a now db =
        (Except.ok { id := a.id, street := a.street, city := a.city,
                     state := a.state, postal_code := a.postal_code,
                     country := a.country, created_at := now, updated_at := now },
         db ++ [(a.id, { id := a.id, street := a.street, city := a.city,
                         state := a.state, postal_code := a.postal_code,
                         country := a.country, created_at := now,
                         updated_at := now })])) := by
  by_cases h : dictContains db a.id = true
  · refine ⟨by simp [create_address, h], fun _ => by simp [create_address, h],
      fun hf => by simp [hf] at h⟩
  · have h' : dictContains db a.id = false := by simpa using h
    refine ⟨by simp [create_address, h'], fun hc => absurd hc h, fun _ => ?_⟩
    unfold create_address
    rw [if_neg h]
    show (Except.ok _, dictSet db a.id _) = _
    rw [dictSet_fresh db a.id _ h']

/-- Witness for C5: creating the walkthrough address in the empty
store succeeds and appends it; re-creating it against the resulting
store is rejected with DuplicateIdentity and leaves the store as it
was. -/
theorem create_address_duplicate_spec_witness :
    create_address sampleAddr 5 [] =
      (Except.ok sampleAddrRead, [(1, sampleAddrRead)]) ∧
    (create_address sampleAddr 7 [(1, sampleAddrRead)]).1 =
      Except.error ApiError.duplicateIdentity ∧
    (create_address sampleAddr 7 [(1, sampleAddrRead)]).2 =
      [(1, sampleAddrRead)] := by
  refine ⟨?_, ?_, ?_⟩
  · exact (create_address_duplicate_spec sampleAddr 5 []).2.2 (by rfl)
  · exact (create_address_duplicate_spec sampleAddr 7 [(1, sampleAddrRead)]).1.mpr (by rfl)
  · exact (create_address_duplicate_spec sampleAddr 7 [(1, sampleAddrRead)]).2.1 (by rfl)

/-- C7: every successful create returns a record whose id is the
freshly drawn identifier (for Address, the payload's identifier, which
is itself freshly drawn by its default factory when the client omits
it) and whose `created_at` and `updated_at` are both the creation
time. -/
theorem create_sets_equal_timestamps :
    (∀ (p : PersonCreate) (i t : Nat) (db : List (Nat × PersonRead)) (r : PersonRead),
        (create_person p i t db).1 = Except.ok r →
        r.id = i ∧ r.created_at = t ∧ r.updated_at = t) ∧
    (∀ (p : FeeDetailsCreate) (i t : Nat) (db : List (Nat × FeeDetailsRead)) (r : FeeDetailsRead),
        (create_fee_details p i t db).1 = Except.ok r →
        r.id = i ∧ r.created_at = t ∧ r.updated_at = t) ∧
    (∀ (p : VisaStatusCreate) (i t : Nat) (db : List (Nat × VisaStatusRead)) (r : VisaStatusRead),
        (create_visa_status p i t db).1 = Except.ok r →
        r.id = i ∧ r.created_at = t ∧ r.updated_at = t) ∧
    (∀ (a : AddressCreate) (t : Nat) (db : List (Nat × AddressRead)) (r : AddressRead),
        (create_address a t db).1 = Except.ok r →
        r.id = a.id ∧ r.created_at = t ∧ r.updated_at = t) := by
  refine ⟨?_, ?_, ?_, ?_⟩
  · intro p i t db r h
    unfold create_person at h
    by_cases hv : personCreateValid p
    · rw [if_pos hv] at h
      simp only [Except.ok.injEq] at h
      rw [← h]
      exact ⟨rfl, rfl, rfl⟩
    · rw [if_neg hv] at h
      cases h
  · intro p i t db r h
    unfold create_fee_details at h
    simp only [Except.ok.injEq] at h
    rw [← h]
    exact ⟨rfl, rfl, rfl⟩
  · intro p i t db r h
    unfold create_visa_status at h
    simp only [Except.ok.injEq] at h
    rw [← h]
    exact ⟨rfl, rfl, rfl⟩
  · intro a t db r h
    unfold create_address at h
    by_cases hc : dictContains db a.id
    · rw [if_pos (by simpa [dictContains] using hc)] at h
      cases h
    · rw [if_neg (by simpa [dictContains] using hc)] at h
      simp only [Except.ok.injEq] at h
      rw [← h]
      exact ⟨rfl, rfl, rfl⟩

/-- Witness for C7: the walkthrough FeeDetails create with fresh id 4
at time 6 yields id 4 and `created_at = updated_at = 6`. -/
theorem create_sets_equal_timestamps_witness :
    sampleFeeRead.id = 4 ∧ sampleFeeRead.created_at = 6 ∧
      sampleFeeRead.updated_at = 6 :=
  create_sets_equal_timestamps.2.1 sampleFee 4 6 [] sampleFeeRead (by rfl)

/-- C6: for every entity type, `get` returns the stored record exactly
when the id is a key of the collection and NotFound exactly when it is
absent; `update` on an absent id returns NotFound and leaves the
collection unchanged (for Person, given a payload that passes the
Update shape's validation, which the transport layer guarantees). -/
theorem get_found_update_notfound :
    (∀ (k : Nat) (db : List (Nat × AddressRead)) (r : AddressRead),
        get_address k db = Except.ok r ↔ dictGet db k = some r) ∧
    (∀ (k : Nat) (db : List (Nat × AddressRead)),
        get_address k db = Except.error ApiError.notFound ↔ dictGet db k = none) ∧
    (∀ (k : Nat) (db : List (Nat × PersonRead)) (r : PersonRead),
        get_person k db = Except.ok r ↔ dictGet db k = some r) ∧
    (∀ (k : Nat) (db : List (Nat × PersonRead)),
        get_person k db = Except.error ApiError.notFound ↔ dictGet db k = none) ∧
    (∀ (k : Nat) (db : List (Nat × FeeDetailsRead)) (r : FeeDetailsRead),
        get_fee_details k db = Except.ok r ↔ dictGet db k = some r) ∧
    (∀ (k : Nat) (db : List (Nat × FeeDetailsRead)),
        get_fee_details k db = Except.error ApiError.notFound ↔ dictGet db k = none) ∧
    (∀ (k : Nat) (db : List (Nat × VisaStatusRead)) (r : VisaStatusRead),
        get_visa_status k db = Except.ok r ↔ dictGet db k = some r) ∧
    (∀ (k : Nat) (db : List (Nat × VisaStatusRead)),
        get_visa_status k db = Except.error ApiError.notFound ↔ dictGet db k = none) ∧
    (∀ (k : Nat) (u : AddressUpdate) (db : List (Nat × AddressRead)),
        dictGet db k = none →
        update_address k u db = (Except.error ApiError.notFound, db)) ∧
    (∀ (k : Nat) (u : PersonUpdate) (db : List (Nat × PersonRead)),
        personUpdateValid u = true → dictGet db k = none →
        update_person k u db = (Except.error ApiError.notFound, db)) ∧
    (∀ (k : Nat) (u : FeeDetailsUpdate) (db : List (Nat × FeeDetailsRead)),
        dictGet db k = none →
        update_fee_details k u db = (Except.error ApiError.notFound, db)) ∧
    (∀ (k : Nat) (u : VisaStatusUpdate) (db : List (Nat × VisaStatusRead)),
        dictGet db k = none →
        update_visa_status k u db = (Except.error ApiError.notFound, db)) := by
  refine ⟨?_, ?_, ?_, ?_, ?_, ?_, ?_, ?_, ?_, ?_, ?_, ?_⟩
  · intro k db r
    unfold get_address
    cases h : dictGet db k <;> simp
  · intro k db
    unfold get_address
    cases h : dictGet db k <;> simp
  · intro k db r
    unfold get_person
    cases h : dictGet db k <;> simp
  · intro k db
    unfold get_person
    cases h : dictGet db k <;> simp
  · intro k db r
    unfold get_fee_details
    cases h : dictGet db k <;> simp
  · intro k db
    unfold get_fee_details
    cases h : dictGet db k <;> simp
  · intro k db r
    unfold get_visa_status
    cases h : dictGet db k <;> simp
  · intro k db
    unfold get_visa_status
    cases h : dictGet db k <;> simp
  · intro k u db h
    unfold update_address
    rw [h]
  · intro k u db hu h
    unfold update_person
    rw [if_pos hu, h]
  · intro k u db h
    unfold update_fee_details
    rw [h]
  · intro k u db h
    unfold update_visa_status
    rw [h]

/-- Witness for C6: looking up an unused id in the empty VisaStatus
collection answers NotFound, and updating it answers NotFound with the
collection unchanged; likewise for a Person update with an empty
(valid) patch. -/
theorem get_found_update_notfound_witness :
    get_visa_status 42 [] = Except.error ApiError.notFound ∧
    update_visa_status 42 {} [] = (Except.error ApiError.notFound, []) ∧
    update_person 42 {} [] = (Except.error ApiError.notFound, []) := by
  refine ⟨?_, ?_, ?_⟩
  · exact (get_found_update_notfound.2.2.2.2.2.2.2.1 42 []).mpr (by rfl)
  · exact get_found_update_notfound.2.2.2.2.2.2.2.2.2.2.2 42 {} [] (by rfl)
  · exact get_found_update_notfound.2.2.2.2.2.2.2.2.2.1 42 {} [] (by rfl) (by rfl)

/-- C2: a successful partial update overwrites exactly the fields
present in the payload with the payload's values and leaves every
absent field — and the server-assigned `id` and `created_at` — at its
pre-update value, for each of the four entities. -/
theorem update_partial_field_isolation :
    (∀ (k : Nat) (u : AddressUpdate) (db : List (Nat × AddressRead))
        (stored m : AddressRead),
        dictGet db k = some stored →
        (update_address k u db).1 = Except.ok m →
        (u.street = none → m.street = stored.street) ∧
        (∀ v, u.street = some v → m.street = v) ∧
        (u.city = none → m.city = stored.city) ∧
        (∀ v, u.city = some v → m.city = v) ∧
        (u.state = none → m.state = stored.state) ∧
        (∀ v, u.state = some v → m.state = v) ∧
        (u.postal_code = none → m.postal_code = stored.postal_code) ∧
        (∀ v, u.postal_code = some v → m.postal_code = v) ∧
        (u.country = none → m.country = stored.country) ∧
        (∀ v, u.country = some v → m.country = v) ∧
        m.id = stored.id ∧ m.created_at = stored.created_at) ∧
    (∀ (k : Nat) (u : PersonUpdate) (db : List (Nat × PersonRead))
        (stored m : PersonRead),
        personUpdateValid u = true →
        dictGet db k = some stored →
        (update_person k u db).1 = Except.ok m →
        (u.uni = none → m.uni = stored.uni) ∧
        (∀ v, u.uni = some v → m.uni = v) ∧
        (u.first_name = none → m.first_name = stored.first_name) ∧
        (∀ v, u.first_name = some v → m.first_name = v) ∧
        (u.last_name = none → m.last_name = stored.last_name) ∧
        (∀ v, u.last_name = some v → m.last_name = v) ∧
        (u.email = none → m.email = stored.email) ∧
        (∀ v, u.email = some v → m.email = v) ∧
        (u.phone = none → m.phone = stored.phone) ∧
        (∀ w, u.phone = some w → m.phone = w) ∧
        (u.birth_date = none → m.birth_date = stored.birth_date) ∧
        (∀ w, u.birth_date = some w → m.birth_date = w) ∧
        (u.addresses = none → m.addresses = stored.addresses) ∧
        (∀ l, u.addresses = some l → m.addresses = l) ∧
        m.id = stored.id ∧ m.created_at = stored.created_at) ∧
    (∀ (k : Nat) (u : FeeDetailsUpdate) (db : List (Nat × FeeDetailsRead))
        (stored m : FeeDetailsRead),
        dictGet db k = some stored →
        (update_fee_details k u db).1 = Except.ok m →
        (u.university_name = none → m.university_name = stored.university_name) ∧
        (∀ v, u.university_name = some v → m.university_name = v) ∧
        (u.number_of_credits = none → m.number_of_credits = stored.number_of_credits) ∧
        (∀ v, u.number_of_credits = some v → m.number_of_credits = v) ∧
        (u.fee_paid = none → m.fee_paid = stored.fee_paid) ∧
        (∀ v, u.fee_paid = some v → m.fee_paid = v) ∧
        m.id = stored.id ∧ m.created_at = stored.created_at) ∧
    (∀ (k : Nat) (u : VisaStatusUpdate) (db : List (Nat × VisaStatusRead))
        (stored m : VisaStatusRead),
        dictGet db k = some stored →
        (update_visa_status k u db).1 = Except.ok m →
        (u.visa_status = none → m.visa_status = stored.visa_status) ∧
        (∀ v, u.visa_status = some v → m.visa_status = v) ∧
        m.id = stored.id ∧ m.created_at = stored.created_at) := by
  refine ⟨?_, ?_, ?_, ?_⟩
  · intro k u db stored m h hok
    rw [update_address_ok_eq k u db stored h] at hok
    simp only [Except.ok.injEq] at hok
    subst hok
    refine ⟨fun hn => by simp [mergeAddress, hn],
      fun v hv => by simp [mergeAddress, hv],
      fun hn => by simp [mergeAddress, hn],
      fun v hv => by simp [mergeAddress, hv],
      fun hn => by simp [mergeAddress, hn],
      fun v hv => by simp [mergeAddress, hv],
      fun hn => by simp [mergeAddress, hn],
      fun v hv => by simp [mergeAddress, hv],
      fun hn => by simp [mergeAddress, hn],
      fun v hv => by simp [mergeAddress, hv],
      rfl, rfl⟩
  · intro k u db stored m hu h hok
    rw [update_person_ok_eq k u db stored hu h] at hok
    simp only [Except.ok.injEq] at hok
    subst hok
    refine ⟨fun hn => by simp [mergePerson, hn],
      fun v hv => by simp [mergePerson, hv],
      fun hn => by simp [mergePerson, hn],
      fun v hv => by simp [mergePerson, hv],
      fun hn => by simp [mergePerson, hn],
      fun v hv => by simp [mergePerson, hv],
      fun hn => by simp [mergePerson, hn],
      fun v hv => by simp [mergePerson, hv],
      fun hn => by simp [mergePerson, hn],
      fun w hw => by simp [mergePerson, hw],
      fun hn => by simp [mergePerson, hn],
      fun w hw => by simp [mergePerson, hw],
      fun hn => by simp [mergePerson, hn],
      fun l hl => by simp [mergePerson, hl],
      rfl, rfl⟩
  · intro k u db stored m h hok
    rw [update_fee_details_ok_eq k u db stored h] at hok
    simp only [Except.ok.injEq] at hok
    subst hok
    refine ⟨fun hn => by simp [mergeFeeDetails, hn],
      fun v hv => by simp [mergeFeeDetails, hv],
      fun hn => by simp [mergeFeeDetails, hn],
      fun v hv => by simp [mergeFeeDetails, hv],
      fun hn => by simp [mergeFeeDetails, hn],
      fun v hv => by simp [mergeFeeDetails, hv],
      rfl, rfl⟩
  · intro k u db stored m h hok
    rw [update_visa_status_ok_eq k u db stored h] at hok
    simp only [Except.ok.injEq] at hok
    subst hok
    refine ⟨fun hn => by simp [mergeVisaStatus, hn],
      fun v hv => by simp [mergeVisaStatus, hv],
      rfl, rfl⟩


/-- Witness for C2: patching only `number_of_credits` on the stored
walkthrough FeeDetails record changes that field to 36 and leaves
`university_name`, `fee_paid`, `id` and `created_at` at their
pre-update values. -/
theorem update_partial_field_isolation_witness :
    (mergeFeeDetails sampleFeeRead sampleFeePatch).university_name =
      sampleFeeRead.university_name ∧
    (mergeFeeDetails sampleFeeRead sampleFeePatch).number_of_credits = 36 ∧
    (mergeFeeDetails sampleFeeRead sampleFeePatch).fee_paid =
      sampleFeeRead.fee_paid ∧
    (mergeFeeDetails sampleFeeRead sampleFeePatch).id = sampleFeeRead.id ∧
    (mergeFeeDetails sampleFeeRead sampleFeePatch).created_at =
      sampleFeeRead.created_at := by
  have h := update_partial_field_isolation.2.2.1 4 sampleFeePatch
    [(4, sampleFeeRead)] sampleFeeRead
    (mergeFeeDetails sampleFeeRead sampleFeePatch) (by rfl) (by rfl)
  exact ⟨h.1 rfl, h.2.2.2.1 36 rfl, h.2.2.2.2.1 rfl, h.2.2.2.2.2.2.1,
    h.2.2.2.2.2.2.2⟩

/-- C8: when the `addresses` field is present in a Person update
payload, the successful update replaces the stored person's whole
embedded address sequence with the payload's sequence. -/
theorem update_person_addresses_replacement :
    ∀ (k : Nat) (u : PersonUpdate) (db : List (Nat × PersonRead))
      (stored m : PersonRead) (l : List AddressBase),
      personUpdateValid u = true →
      dictGet db k = some stored →
      u.addresses = some l →
      (update_person k u db).1 = Except.ok m →
      m.addresses = l := by
  intro k u db stored m l hu h hl hok
  rw [update_person_ok_eq k u db stored hu h] at hok
  simp only [Except.ok.injEq] at hok
  subst hok
  simp [mergePerson, hl]

/-- Witness for C8: updating the stored walkthrough person with a
payload whose only present field is `addresses = []` leaves the person
with zero addresses. -/
theorem update_person_addresses_replacement_witness :
    (mergePerson samplePersonRead clearAddressesPatch).addresses = [] :=
  update_person_addresses_replacement 2 clearAddressesPatch
    [(2, samplePersonRead)] samplePersonRead
    (mergePerson samplePersonRead clearAddressesPatch) [] (by rfl) (by rfl)
    (by rfl) (by rfl)

/-- C1 (divergence): on the spec's own walkthrough — create the Address
at time 5, then `update_address(id, city := "Brooklyn")` — the update
handler rebuilds the record from the dump of the stored one and never
calls `utcnow`, so the returned record keeps `updated_at = 5 =
created_at` instead of being stamped with the update time; the claimed
`updated_at > created_at` fails. -/
theorem update_address_does_not_refresh_updated_at :
    ∃ m : AddressRead,
      (update_address 1 sampleAddrPatch [(1, sampleAddrRead)]).1 =
        Except.ok m ∧
      m.city = "Brooklyn" ∧
      m.id = sampleAddrRead.id ∧
      m.created_at = sampleAddrRead.created_at ∧
      m.updated_at = sampleAddrRead.updated_at ∧
      ¬ sampleAddrRead.created_at < m.updated_at := by
  refine ⟨mergeAddress sampleAddrRead sampleAddrPatch, by rfl, by rfl, by rfl,
    by rfl, by rfl, by decide⟩

theorem dictContains_of_dictGet {α : Type} (db : List (Nat × α)) (k : Nat)
    (r : α) (h : dictGet db k = some r) : dictContains db k = true := by
  cases hc : dictContains db k
  · rw [(dictGet_eq_none db k).2 hc] at h
    cases h
  · rfl

/-- C9 (counterexample): two `list_fee_details` calls with the same
(empty) filter set, separated only by an update — no create in
between — return different sequences: the update changed the stored
record's `university_name`, so the claim's stability condition is too
weak as stated. -/
theorem list_not_stable_across_update :
    list_fee_details {} [(4, sampleFeeRead)] ≠
      list_fee_details {}
        ((update_fee_details 4 sampleFeeNamePatch [(4, sampleFeeRead)]).2) := by
  decide

theorem dictValues_dictSet_fresh {α : Type} (db : List (Nat × α)) (k : Nat)
    (v : α) (h : dictContains db k = false) :
    dictValues (dictSet db k v) = dictValues db ++ [v] := by
  rw [dictSet_fresh db k v h]
  simp [dictValues]

theorem dictSet_inplace {α : Type} (db : List (Nat × α)) (k : Nat) (v : α)
    (h : dictContains db k = true) :
    dictSet db k v = db.map (fun p => if p.1 == k then (k, v) else p) := by
  unfold dictSet
  rw [if_pos (show (db.any fun p => p.1 == k) = true from h)]

/-- C9 (amended): every list endpoint enumerates records in insertion
order — a create under a fresh id appends its record at the end of the
enumeration — and a successful update keeps the collection's key
sequence (hence every record's position) unchanged, replacing the
record in place; list results are stable only while no create *or
update* intervenes. Stated for all four entities. -/
theorem list_insertion_order_update_in_place :
    (∀ (a : AddressCreate) (now : Nat) (db : List (Nat × AddressRead))
        (r : AddressRead) (db' : List (Nat × AddressRead)),
        create_address a now db = (Except.ok r, db') →
        dictValues db' = dictValues db ++ [r]) ∧
    (∀ (p : PersonCreate) (i t : Nat) (db : List (Nat × PersonRead))
        (r : PersonRead) (db' : List (Nat × PersonRead)),
        create_person p i t db = (Except.ok r, db') →
        dictContains db i = false →
        dictValues db' = dictValues db ++ [r]) ∧
    (∀ (p : FeeDetailsCreate) (i t : Nat) (db : List (Nat × FeeDetailsRead))
        (r : FeeDetailsRead) (db' : List (Nat × FeeDetailsRead)),
        create_fee_details p i t db = (Except.ok r, db') →
        dictContains db i = false →
        dictValues db' = dictValues db ++ [r]) ∧
    (∀ (p : VisaStatusCreate) (i t : Nat) (db : List (Nat × VisaStatusRead))
        (r : VisaStatusRead) (db' : List (Nat × VisaStatusRead)),
        create_visa_status p i t db = (Except.ok r, db') →
        dictContains db i = false →
        dictValues db' = dictValues db ++ [r]) ∧
    (∀ (k : Nat) (u : AddressUpdate) (db : List (Nat × AddressRead)),
        ((update_address k u db).2).map Prod.fst = db.map Prod.fst) ∧
    (∀ (k : Nat) (u : PersonUpdate) (db : List (Nat × PersonRead)),
        ((update_person k u db).2).map Prod.fst = db.map Prod.fst) ∧
    (∀ (k : Nat) (u : FeeDetailsUpdate) (db : List (Nat × FeeDetailsRead)),
        ((update_fee_details k u db).2).map Prod.fst = db.map Prod.fst) ∧
    (∀ (k : Nat) (u : VisaStatusUpdate) (db : List (Nat × VisaStatusRead)),
        ((update_visa_status k u db).2).map Prod.fst = db.map Prod.fst) ∧
    (∀ (k : Nat) (u : AddressUpdate) (db : List (Nat × AddressRead))
        (stored : AddressRead),
        dictGet db k = some stored →
        (update_address k u db).2 =
          db.map (fun p => if p.1 == k then (k, mergeAddress stored u) else p)) ∧
    (∀ (k : Nat) (u : PersonUpdate) (db : List (Nat × PersonRead))
        (stored : PersonRead),
        personUpdateValid u = true →
        dictGet db k = some stored →
        (update_person k u db).2 =
          db.map (fun p => if p.1 == k then (k, mergePerson stored u) else p)) ∧
    (∀ (k : Nat) (u : FeeDetailsUpdate) (db : List (Nat × FeeDetailsRead))
        (stored : FeeDetailsRead),
        dictGet db k = some stored →
        (update_fee_details k u db).2 =
          db.map (fun p => if p.1 == k then (k, mergeFeeDetails stored u) else p)) ∧
    (∀ (k : Nat) (u : VisaStatusUpdate) (db : List (Nat × VisaStatusRead))
        (stored : VisaStatusRead),
        dictGet db k = some stored →
        (update_visa_status k u db).2 =
          db.map (fun p => if p.1 == k then (k, mergeVisaStatus stored u) else p)) := by
  refine ⟨?_, ?_, ?_, ?_, ?_, ?_, ?_, ?_, ?_, ?_, ?_, ?_⟩
  · intro a now db r db' h
    unfold create_address at h
    by_cases hc : dictContains db a.id = true
    · rw [if_pos hc] at h
      cases h
    · have hc' : dictContains db a.id = false := by simpa using hc
      rw [if_neg hc] at h
      simp only [Prod.mk.injEq, Except.ok.injEq] at h
      rcases h with ⟨hr, hdb⟩
      rw [← hdb, ← hr]
      exact dictValues_dictSet_fresh db a.id _ hc'
  · intro p i t db r db' h hfresh
    unfold create_person at h
    by_cases hv : personCreateValid p = true
    · rw [if_pos hv] at h
      simp only [Prod.mk.injEq, Except.ok.injEq] at h
      rcases h with ⟨hr, hdb⟩
      rw [← hdb, ← hr]
      exact dictValues_dictSet_fresh db i _ hfresh
    · rw [if_neg hv] at h
      simp only [Prod.mk.injEq] at h
      exact Except.noConfusion h.1
  · intro p i t db r db' h hfresh
    unfold create_fee_details at h
    simp only [Prod.mk.injEq, Except.ok.injEq] at h
    rcases h with ⟨hr, hdb⟩
    rw [← hdb, ← hr]
    exact dictValues_dictSet_fresh db i _ hfresh
  · intro p i t db r db' h hfresh
    unfold create_visa_status at h
    simp only [Prod.mk.injEq, Except.ok.injEq] at h
    rcases h with ⟨hr, hdb⟩
    rw [← hdb, ← hr]
    exact dictValues_dictSet_fresh db i _ hfresh
  · intro k u db
    unfold update_address
    cases hg : dictGet db k with
    | none => rfl
    | some stored =>
      exact dictSet_keys_of_contains db k _ (dictContains_of_dictGet db k stored hg)
  · intro k u db
    unfold update_person
    by_cases hv : personUpdateValid u = true
    · rw [if_pos hv]
      cases hg : dictGet db k with
      | none => rfl
      | some stored =>
        exact dictSet_keys_of_contains db k _ (dictContains_of_dictGet db k stored hg)
    · rw [if_neg hv]
  · intro k u db
    unfold update_fee_details
    cases hg : dictGet db k with
    | none => rfl
    | some stored =>
      exact dictSet_keys_of_contains db k _ (dictContains_of_dictGet db k stored hg)
  · intro k u db
    unfold update_visa_status
    cases hg : dictGet db k with
    | none => rfl
    | some stored =>
      exact dictSet_keys_of_contains db k _ (dictContains_of_dictGet db k stored hg)
  · intro k u db stored hg
    rw [update_address_ok_eq k u db stored hg]
    exact dictSet_inplace db k _ (dictContains_of_dictGet db k stored hg)
  · intro k u db stored hu hg
    rw [update_person_ok_eq k u db stored hu hg]
    exact dictSet_inplace db k _ (dictContains_of_dictGet db k stored hg)
  · intro k u db stored hg
    rw [update_fee_details_ok_eq k u db stored hg]
    exact dictSet_inplace db k _ (dictContains_of_dictGet db k stored hg)
  · intro k u db stored hg
    rw [update_visa_status_ok_eq k u db stored hg]
    exact dictSet_inplace db k _ (dictContains_of_dictGet db k stored hg)

/-- Witness for C9's amended claim: for each entity, the walkthrough
create appends its record at the end of the enumeration, and an update
of the stored record replaces it in place, keeping the key sequence. -/
theorem list_insertion_order_update_in_place_witness :
    dictValues [(1, sampleAddrRead)] =
      dictValues ([] : List (Nat × AddressRead)) ++ [sampleAddrRead] ∧
    dictValues [(2, samplePersonRead)] =
      dictValues ([] : List (Nat × PersonRead)) ++ [samplePersonRead] ∧
    dictValues [(4, sampleFeeRead)] =
      dictValues ([] : List (Nat × FeeDetailsRead)) ++ [sampleFeeRead] ∧
    dictValues [(8, sampleVisaRead)] =
      dictValues ([] : List (Nat × VisaStatusRead)) ++ [sampleVisaRead] ∧
    (update_address 1 sampleAddrPatch [(1, sampleAddrRead)]).2 =
      [(1, mergeAddress sampleAddrRead sampleAddrPatch)] ∧
    (update_person 2 clearAddressesPatch [(2, samplePersonRead)]).2 =
      [(2, mergePerson samplePersonRead clearAddressesPatch)] ∧
    (update_fee_details 4 sampleFeePatch [(4, sampleFeeRead)]).2 =
      [(4, mergeFeeDetails sampleFeeRead sampleFeePatch)] ∧
    (update_visa_status 8 { visa_status := some "OPT" } [(8, sampleVisaRead)]).2 =
      [(8, mergeVisaStatus sampleVisaRead { visa_status := some "OPT" })] := by
  refine ⟨?_, ?_, ?_, ?_, ?_, ?_, ?_, ?_⟩
  · exact list_insertion_order_update_in_place.1 sampleAddr 5 [] sampleAddrRead
      [(1, sampleAddrRead)] (by rfl)
  · exact list_insertion_order_update_in_place.2.1 samplePerson 2 3 []
      samplePersonRead [(2, samplePersonRead)] (by rfl) (by rfl)
  · exact list_insertion_order_update_in_place.2.2.1 sampleFee 4 6 []
      sampleFeeRead [(4, sampleFeeRead)] (by rfl) (by rfl)
  · exact list_insertion_order_update_in_place.2.2.2.1 { visa_status := "F1" }
      8 2 [] sampleVisaRead [(8, sampleVisaRead)] (by rfl) (by rfl)
  · exact list_insertion_order_update_in_place.2.2.2.2.2.2.2.2.1 1
      sampleAddrPatch [(1, sampleAddrRead)] sampleAddrRead (by rfl)
  · exact list_insertion_order_update_in_place.2.2.2.2.2.2.2.2.2.1 2
      clearAddressesPatch [(2, samplePersonRead)] samplePersonRead (by rfl) (by rfl)
  · exact list_insertion_order_update_in_place.2.2.2.2.2.2.2.2.2.2.1 4
      sampleFeePatch [(4, sampleFeeRead)] sampleFeeRead (by rfl)
  · exact list_insertion_order_update_in_place.2.2.2.2.2.2.2.2.2.2.2 8
      { visa_status := some "OPT" } [(8, sampleVisaRead)] sampleVisaRead (by rfl)

theorem storeKeyed_dictSet {α : Type} (idOf : α → Nat)
    (db : List (Nat × α)) (k : Nat) (v : α)
    (hdb : storeKeyed idOf db) (hv : idOf v = k) :
    storeKeyed idOf (dictSet db k v) := by
  intro p hp
  rcases mem_dictSet db k v p hp with h | h
  · rw [h]
    exact hv
  · exact hdb p h

theorem storeKeyed_dictGet {α : Type} (idOf : α → Nat)
    (db : List (Nat × α)) (k : Nat) (r : α)
    (hdb : storeKeyed idOf db) (h : dictGet db k = some r) :
    idOf r = k :=
  hdb (k, r) (dictGet_mem db k r h)

theorem storeKeyed_nil {α : Type} (idOf : α → Nat) :
    storeKeyed idOf ([] : List (Nat × α)) := by
  intro p hp
  cases hp

theorem storeKeyed_create_address (a : AddressCreate) (now : Nat)
    (db : List (Nat × AddressRead)) (h : storeKeyed AddressRead.id db) :
    storeKeyed AddressRead.id (create_address a now db).2 := by
  unfold create_address
  by_cases hc : dictContains db a.id = true
  · rw [if_pos hc]
    exact h
  · rw [if_neg hc]
    exact storeKeyed_dictSet AddressRead.id db a.id _ h rfl

theorem storeKeyed_update_address (k : Nat) (u : AddressUpdate)
    (db : List (Nat × AddressRead)) (h : storeKeyed AddressRead.id db) :
    storeKeyed AddressRead.id (update_address k u db).2 := by
  unfold update_address
  cases hg : dictGet db k with
  | none => exact h
  | some stored =>
    exact storeKeyed_dictSet AddressRead.id db k _ h
      (storeKeyed_dictGet AddressRead.id db k stored h hg)

theorem storeKeyed_create_person (p : PersonCreate) (freshId now : Nat)
    (db : List (Nat × PersonRead)) (h : storeKeyed PersonRead.id db) :
    storeKeyed PersonRead.id (create_person p freshId now db).2 := by
  unfold create_person
  by_cases hv : personCreateValid p = true
  · rw [if_pos hv]
    exact storeKeyed_dictSet PersonRead.id db _ _ h rfl
  · rw [if_neg hv]
    exact h

theorem storeKeyed_update_person (k : Nat) (u : PersonUpdate)
    (db : List (Nat × PersonRead)) (h : storeKeyed PersonRead.id db) :
    storeKeyed PersonRead.id (update_person k u db).2 := by
  unfold update_person
  by_cases hv : personUpdateValid u = true
  · rw [if_pos hv]
    cases hg : dictGet db k with
    | none => exact h
    | some stored =>
      exact storeKeyed_dictSet PersonRead.id db k _ h
        (storeKeyed_dictGet PersonRead.id db k stored h hg)
  · rw [if_neg hv]
    exact h

theorem storeKeyed_create_fee_details (p : FeeDetailsCreate)
    (freshId now : Nat) (db : List (Nat × FeeDetailsRead))
    (h : storeKeyed FeeDetailsRead.id db) :
    storeKeyed FeeDetailsRead.id (create_fee_details p freshId now db).2 :=
  storeKeyed_dictSet FeeDetailsRead.id db _ _ h rfl

theorem storeKeyed_update_fee_details (k : Nat) (u : FeeDetailsUpdate)
    (db : List (Nat × FeeDetailsRead)) (h : storeKeyed FeeDetailsRead.id db) :
    storeKeyed FeeDetailsRead.id (update_fee_details k u db).2 := by
  unfold update_fee_details
  cases hg : dictGet db k with
  | none => exact h
  | some stored =>
    exact storeKeyed_dictSet FeeDetailsRead.id db k _ h
      (storeKeyed_dictGet FeeDetailsRead.id db k stored h hg)

theorem storeKeyed_create_visa_status (p : VisaStatusCreate)
    (freshId now : Nat) (db : List (Nat × VisaStatusRead))
    (h : storeKeyed VisaStatusRead.id db) :
    storeKeyed VisaStatusRead.id (create_visa_status p freshId now db).2 :=
  storeKeyed_dictSet VisaStatusRead.id db _ _ h rfl

theorem storeKeyed_update_visa_status (k : Nat) (u : VisaStatusUpdate)
    (db : List (Nat × VisaStatusRead)) (h : storeKeyed VisaStatusRead.id db) :
    storeKeyed VisaStatusRead.id (update_visa_status k u db).2 := by
  unfold update_visa_status
  cases hg : dictGet db k with
  | none => exact h
  | some stored =>
    exact storeKeyed_dictSet VisaStatusRead.id db k _ h
      (storeKeyed_dictGet VisaStatusRead.id db k stored h hg)

/-- C10: in every state reachable by any sequence of create and
update requests, each of the four collections stores every record
under its own `id`: creates insert under the new record's id, and
updates preserve both the key and the stored id (the patch carries no
id key). -/
theorem reachable_key_record_agreement :
    ∀ s : SysState, Reachable s →
      storeKeyed PersonRead.id s.persons ∧
      storeKeyed AddressRead.id s.addresses ∧
      storeKeyed FeeDetailsRead.id s.fee_details ∧
      storeKeyed VisaStatusRead.id s.visa_statuses := by
  intro s hs
  induction hs with
  | init =>
    exact ⟨storeKeyed_nil _, storeKeyed_nil _, storeKeyed_nil _, storeKeyed_nil _⟩
  | createAddress s a now _ ih =>
    exact ⟨ih.1, storeKeyed_create_address a now s.addresses ih.2.1,
      ih.2.2.1, ih.2.2.2⟩
  | updateAddress s k u _ ih =>
    exact ⟨ih.1, storeKeyed_update_address k u s.addresses ih.2.1,
      ih.2.2.1, ih.2.2.2⟩
  | createPerson s p freshId now _ ih =>
    exact ⟨storeKeyed_create_person p freshId now s.persons ih.1, ih.2.1,
      ih.2.2.1, ih.2.2.2⟩
  | updatePerson s k u _ ih =>
    exact ⟨storeKeyed_update_person k u s.persons ih.1, ih.2.1,
      ih.2.2.1, ih.2.2.2⟩
  | createFeeDetails s p freshId now _ ih =>
    exact ⟨ih.1, ih.2.1,
      storeKeyed_create_fee_details p freshId now s.fee_details ih.2.2.1,
      ih.2.2.2⟩
  | updateFeeDetails s k u _ ih =>
    exact ⟨ih.1, ih.2.1,
      storeKeyed_update_fee_details k u s.fee_details ih.2.2.1, ih.2.2.2⟩
  | createVisaStatus s p freshId now _ ih =>
    exact ⟨ih.1, ih.2.1, ih.2.2.1,
      storeKeyed_create_visa_status p freshId now s.visa_statuses ih.2.2.2⟩
  | updateVisaStatus s k u _ ih =>
    exact ⟨ih.1, ih.2.1, ih.2.2.1,
      storeKeyed_update_visa_status k u s.visa_statuses ih.2.2.2⟩

/-- Witness for C10: the state reached by one Person create from the
empty initial state satisfies key–record agreement in all four
collections. -/
theorem reachable_key_record_agreement_witness :
    storeKeyed PersonRead.id (create_person samplePerson 2 3 []).2 ∧
    storeKeyed AddressRead.id ([] : List (Nat × AddressRead)) ∧
    storeKeyed FeeDetailsRead.id ([] : List (Nat × FeeDetailsRead)) ∧
    storeKeyed VisaStatusRead.id ([] : List (Nat × VisaStatusRead)) :=
  reachable_key_record_agreement _
    (Reachable.createPerson initState samplePerson 2 3 Reachable.init)

theorem uniMatchesWith_sound (digitTest : Char → Bool) (digitOk : Char → Prop)
    (hd : ∀ c, digitTest c = true ↔ digitOk c) (cs : List Char) (n : Nat)
    (h : uniMatchesWith digitTest cs n = true) :
    ∃ L D : List Char, cs = L ++ D ∧ L.length = n ∧
      (∀ c ∈ L, 'a' ≤ c ∧ c ≤ 'z') ∧ 1 ≤ D.length ∧ D.length ≤ 4 ∧
      (∀ c ∈ D, digitOk c) := by
  simp only [uniMatchesWith, Bool.and_eq_true, beq_iff_eq,
    decide_eq_true_eq, List.all_eq_true] at h
  obtain ⟨⟨⟨⟨hlen, hletters⟩, hd1⟩, hd4⟩, hdigits⟩ := h
  refine ⟨cs.take n, cs.drop n, (List.take_append_drop n cs).symm, hlen,
    ?_, hd1, hd4, ?_⟩
  · intro c hc
    have hc' := hletters c hc
    simpa [isLowerAZ] using hc'
  · intro c hc
    exact (hd c).1 (hdigits c hc)

theorem uniMatchesWith_complete (digitTest : Char → Bool) (digitOk : Char → Prop)
    (hd : ∀ c, digitTest c = true ↔ digitOk c) (L D : List Char)
    (hLc : ∀ c ∈ L, 'a' ≤ c ∧ c ≤ 'z')
    (hD1 : 1 ≤ D.length) (hD4 : D.length ≤ 4)
    (hDc : ∀ c ∈ D, digitOk c) :
    uniMatchesWith digitTest (L ++ D) L.length = true := by
  simp only [uniMatchesWith, Bool.and_eq_true, beq_iff_eq,
    decide_eq_true_eq, List.all_eq_true]
  rw [List.take_left, List.drop_left]
  refine ⟨⟨⟨⟨rfl, ?_⟩, hD1⟩, hD4⟩, ?_⟩
  · intro c hc
    have hc' := hLc c hc
    simpa [isLowerAZ] using hc'
  · intro c hc
    exact (hd c).2 (hDc c hc)

theorem uniValidWith_iff (digitTest : Char → Bool) (digitOk : Char → Prop)
    (hd : ∀ c, digitTest c = true ↔ digitOk c) (s : String) :
    (uniMatchesWith digitTest s.toList 2 ||
      uniMatchesWith digitTest s.toList 3) = true ↔
      uniSpecMatchWith digitOk s := by
  constructor
  · intro h
    simp only [Bool.or_eq_true] at h
    rcases h with h2 | h3
    · rcases uniMatchesWith_sound digitTest digitOk hd s.toList 2 h2 with
        ⟨L, D, hcs, hlen, hLc, hD1, hD4, hDc⟩
      exact ⟨L, D, hcs, by omega, by omega, hLc, hD1, hD4, hDc⟩
    · rcases uniMatchesWith_sound digitTest digitOk hd s.toList 3 h3 with
        ⟨L, D, hcs, hlen, hLc, hD1, hD4, hDc⟩
      exact ⟨L, D, hcs, by omega, by omega, hLc, hD1, hD4, hDc⟩
  · rintro ⟨L, D, hcs, hL2, hL3, hLc, hD1, hD4, hDc⟩
    have hm := uniMatchesWith_complete digitTest digitOk hd L D hLc hD1 hD4 hDc
    have hln : L.length = 2 ∨ L.length = 3 := by omega
    simp only [Bool.or_eq_true]
    rcases hln with h2 | h3
    · left
      rw [hcs, ← h2]
      exact hm
    · right
      rw [hcs, ← h3]
      exact hm

theorem uniValid_iff_nd (s : String) : uniValid s = true ↔ uniSpecMatchNd s :=
  uniValidWith_iff isUnicodeDigit (fun c => isUnicodeDigit c = true)
    (fun _ => Iff.rfl) s

theorem uniAsciiValid_iff (s : String) :
    uniAsciiValid s = true ↔ uniSpecMatch s :=
  uniValidWith_iff isDigit09 (fun c => '0' ≤ c ∧ c ≤ '9')
    (fun c => by simp [isDigit09]) s

/-- C4 (counterexample): the program's pattern check accepts
`uni = "ab٣"` — two lowercase ASCII letters followed by ARABIC-INDIC
DIGIT THREE (U+0663, a Unicode decimal digit, hence matched by the
engine's `\d`) — and the create stores that record, although the
string is not of the claimed letters-then-ASCII-digits shape. -/
theorem uni_accepts_nonascii_digit :
    uniValid "ab٣" = true ∧
    (∃ r : PersonRead,
      (create_person { samplePerson with uni := "ab٣" } 2 3 []).1 =
        Except.ok r ∧ r.uni = "ab٣") ∧
    ¬ uniSpecMatch "ab٣" := by
  refine ⟨by decide, ⟨_, rfl, rfl⟩, fun h => ?_⟩
  have hb := (uniAsciiValid_iff "ab٣").2 h
  exact absurd hb (by decide)

/-- C4 (amended): the `uni` field is accepted exactly when it consists
of 2–3 lowercase ASCII letters followed by 1–4 Unicode decimal digits
(the engine's `\d` class; ASCII digits are the common case), with no
case-folding or trimming; Person creates carrying `uni = "AB123"`
(uppercase) or `uni = "abcd1"` (four letters) are rejected with a
validation failure and the collection is left unchanged. -/
theorem uni_pattern_validation_unicode :
    (∀ s : String, uniValid s = true ↔ uniSpecMatchNd s) ∧
    (∀ (i t : Nat) (db : List (Nat × PersonRead)),
        create_person { samplePerson with uni := "AB123" } i t db =
          (Except.error ApiError.validationFailure, db)) ∧
    (∀ (i t : Nat) (db : List (Nat × PersonRead)),
        create_person { samplePerson with uni := "abcd1" } i t db =
          (Except.error ApiError.validationFailure, db)) := by
  refine ⟨uniValid_iff_nd, ?_, ?_⟩
  · intro i t db
    unfold create_person
    rw [if_neg (by decide)]
  · intro i t db
    unfold create_person
    rw [if_neg (by decide)]
